import Mathlib

/-!
Verification of the kfactory port / connectivity / routing kernel.

The definitions below are a shallow embedding of the Python sources:
  * `src/kfactory/port.py`      — transforms stored on ports, setters/getters,
    `BasePort.transformed`, `Port.copy`, `ProtoPort.__eq__`, `port_check`;
  * `src/kfactory/kcell.py`     — the instance-port bucket logic of
    `ProtoTKCell.circuit` and the bucket classification of
    `ProtoTKCell.connectivity_check`;
  * `src/kfactory/routing/aa/optical.py` — the all-angle `route` algorithm.

Machine floats only enter through the external `klayout`/`numpy` libraries
(vector length, `atan2`, rotation by an arbitrary angle, grid snapping).
Those library primitives are abstracted as explicit function parameters or
modelled exactly over `ℚ`; the control flow and arithmetic of the repository
code itself is translated directly.
-/

namespace KF

/-- Points / vectors in micrometer units (`kdb.DPoint` / `kdb.DVector`),
modelled over `ℚ`. -/
abbrev Pt : Type := ℚ × ℚ

/-- Python's `%` on reals: `pymod x n = x - n * ⌊x / n⌋`, which for `n > 0`
always lands in `[0, n)`.  Used by `route` to normalise turn angles. -/
def pymod (x n : ℚ) : ℚ := x - n * (⌊x / n⌋ : ℤ)

/-! ## Simple transforms (`kdb.Trans`)

A simple transform is a rotation by a multiple of 90°, an optional mirror at
the x-axis applied before the rotation, and an integer (dbu) displacement. -/

/-- Mirror a dbu vector at the x-axis when the flag is set. -/
def mx (m : Bool) (v : ℤ × ℤ) : ℤ × ℤ := (v.1, if m then -v.2 else v.2)

/-- Rotate a dbu vector by `a` quarter turns counter-clockwise. -/
def rotZ (a : ZMod 4) (v : ℤ × ℤ) : ℤ × ℤ :=
  match a.val with
  | 0 => v
  | 1 => (-v.2, v.1)
  | 2 => (-v.1, -v.2)
  | _ => (v.2, -v.1)

/-- Model of `kdb.Trans`: simple dbu-based transform (rotation quadrant, mirror flag,
integer displacement).  The point action is `disp + rot angle (mx mirror p)`. -/
structure Trans where
  angle : ZMod 4
  mirror : Bool
  disp : ℤ × ℤ
deriving DecidableEq

/-- Composition of simple transforms, `t1 * t2` applying `t2` first: mirror
flags xor, the rotation of `t2` is negated under `t1`'s mirror, and `t2`'s
displacement is moved through `t1`'s rotation/mirror. -/
def Trans.mul (t1 t2 : Trans) : Trans :=
  ⟨if t1.mirror then t1.angle - t2.angle else t1.angle + t2.angle,
   xor t1.mirror t2.mirror,
   t1.disp + rotZ t1.angle (mx t1.mirror t2.disp)⟩

instance : Mul Trans := ⟨Trans.mul⟩

/-- The constant `kdb.Trans.R180`: rotation by 180°. -/
def Trans.R180 : Trans := ⟨2, false, (0, 0)⟩

/-- The constant `kdb.Trans.M90`: mirror at the 90° (y) axis. -/
def Trans.M90 : Trans := ⟨2, true, (0, 0)⟩

/-! ## Complex transforms (`kdb.DCplxTrans`) -/

/-- Model of `kdb.DCplxTrans`: magnification, rotation angle in degrees, mirror flag and
micrometer displacement. -/
structure DCplx where
  mag : ℚ
  angle : ℚ
  mirror : Bool
  disp : Pt
deriving DecidableEq

/-- Model of `kdb.DCplxTrans.is_complex`: the transform cannot be reduced to a simple
one, i.e. it scales or rotates by an angle that is not a multiple of 90°
(model of the external klayout predicate). -/
def DCplx.is_complex (t : DCplx) : Prop := t.mag ≠ 1 ∨ (t.angle / 90).den ≠ 1

instance (t : DCplx) : Decidable t.is_complex := by
  unfold DCplx.is_complex; infer_instance

/-- Modelled from the spec: `KCLayout.to_dbu` (the layout module is not under
`src/`) — snap a micrometer vector to the integer fabrication grid by dividing
by the grid resolution `dbu` and rounding each coordinate. -/
def to_dbu (dbu : ℚ) (v : Pt) : ℤ × ℤ := (round (v.1 / dbu), round (v.2 / dbu))

/-- Modelled from the spec: `KCLayout.to_um` (the layout module is not under
`src/`) — convert an integer grid vector back to micrometers by scaling with
the grid resolution `dbu`. -/
def to_um (dbu : ℚ) (v : ℤ × ℤ) : Pt := ((v.1 : ℚ) * dbu, (v.2 : ℚ) * dbu)

/-- Model of `kdb.ICplxTrans(value, dbu).s_trans()`: extract the simple part of a
non-complex, grid-aligned complex transform (model of the external klayout
conversion, exact on the inputs where `port.py` applies it). -/
def sTrans (dbu : ℚ) (t : DCplx) : Trans :=
  ⟨((round (t.angle / 90) : ℤ) : ZMod 4), t.mirror, to_dbu dbu t.disp⟩

/-- Model of `kdb.Trans.to_dtype(dbu)` wrapped in a `DCplxTrans`: widen a simple
transform to a complex one (magnification 1, angle in degrees, displacement
scaled to micrometers). -/
def dcplxOfTrans (dbu : ℚ) (t : Trans) : DCplx :=
  ⟨1, 90 * (t.angle.val : ℚ), t.mirror, to_um dbu t.disp⟩

/-! ## `BasePort` and the transform setters/getters (`port.py`) -/

/-- The class `BasePort` (port.py line 103): the stored state of a port.  The
`cross_section` is modelled by its two projections `width` and `layer`; the
`kcl` back-reference and the free-form `info` dict are omitted.  Port names
and port types are represented by numeric identifiers. -/
structure BasePort where
  name : Option ℕ
  width : ℤ
  layer : ℤ
  trans : Option Trans
  dcplx_trans : Option DCplx
  port_type : ℕ
deriving DecidableEq

/-- The `ProtoPort.trans` setter (port.py lines 302–304): stores a duplicate of
the value in `_base.trans`.  Note that the source does not touch
`_base.dcplx_trans`. -/
def trans_set (b : BasePort) (value : Trans) : BasePort :=
  { b with trans := some value }

/-- The `ProtoPort.dcplx_trans` setter (port.py lines 319–326): stores the
complex value unless it is non-complex and its displacement is exactly
grid-aligned, in which case the narrowed simple transform is stored in
`_base.trans`.  Note that neither branch of the source clears the other
stored representation. -/
def dcplx_trans_set (dbu : ℚ) (b : BasePort) (value : DCplx) : BasePort :=
  if value.is_complex ∨ value.disp ≠ to_um dbu (to_dbu dbu value.disp) then
    { b with dcplx_trans := some value }
  else
    { b with trans := some (sTrans dbu value) }

/-- The `ProtoPort.trans` getter (port.py lines 291–300): the stored simple
transform, or the stored complex one narrowed. -/
def trans_get (dbu : ℚ) (b : BasePort) : Trans :=
  match b.trans with
  | some t => t
  | none => sTrans dbu (b.dcplx_trans.getD ⟨1, 0, false, (0, 0)⟩)

/-- The `ProtoPort.dcplx_trans` getter (port.py lines 307–317): the stored
complex transform, or the stored simple one widened. -/
def dcplx_trans_get (dbu : ℚ) (b : BasePort) : DCplx :=
  match b.dcplx_trans with
  | some t => t
  | none => dcplxOfTrans dbu (b.trans.getD ⟨0, false, (0, 0)⟩)

/-! ## `BasePort.transformed` and `Port.copy` -/

/-- An argument of `BasePort.transformed`, which accepts either a simple
`kdb.Trans` or a complex `kdb.DCplxTrans`. -/
inductive TransArg where
  | simple (t : Trans)
  | cplx (t : DCplx)

/-- Widen a `TransArg` to a complex transform (port.py lines 136–139). -/
def TransArg.toCplx (dbu : ℚ) : TransArg → DCplx
  | .simple t => dcplxOfTrans dbu t
  | .cplx t => t

/-- Composition of complex transforms.  Rotation of a micrometer vector by an
arbitrary angle in degrees happens in the external klayout library over
machine floats; it is abstracted here as the parameter `rot`. -/
def cplxMul (rot : ℚ → Pt → Pt) (t1 t2 : DCplx) : DCplx :=
  ⟨t1.mag * t2.mag,
   if t1.mirror then t1.angle - t2.angle else t1.angle + t2.angle,
   xor t1.mirror t2.mirror,
   (t1.disp.1 + t1.mag * (rot t1.angle (t2.disp.1, if t1.mirror then -t2.disp.2 else t2.disp.2)).1,
    t1.disp.2 + t1.mag * (rot t1.angle (t2.disp.1, if t1.mirror then -t2.disp.2 else t2.disp.2)).2)⟩

/-- The method `BasePort.transformed` (port.py lines 123–146): if a simple transform is
stored and both arguments are simple, the copy's simple transform is
`trans * base.trans * post_trans`; otherwise everything is widened to complex
and the copy stores `trans * dcplx * post_trans` with the simple slot
cleared.  The source operates on `self.__copy__()`, which duplicates all
mutable state, so the receiver is never mutated; the embedding is a pure
function on the value. -/
def BasePort.transformed (dbu : ℚ) (rot : ℚ → Pt → Pt) (b : BasePort)
    (tr post : TransArg) : BasePort :=
  match b.trans, tr, post with
  | some t, .simple t1, .simple t2 => { b with trans := some (t1 * t * t2) }
  | _, _, _ =>
    let t1 := tr.toCplx dbu
    let t2 := post.toCplx dbu
    let dct :=
      match b.dcplx_trans with
      | some d => d
      | none => dcplxOfTrans dbu (b.trans.getD ⟨0, false, (0, 0)⟩)
    { b with trans := none, dcplx_trans := some (cplxMul rot (cplxMul rot t1 dct) t2) }

/-- The method `Port.copy` (port.py lines 720–738): returns a new port built on
`self._base.transformed(trans, post_trans)`. -/
def Port.copy (dbu : ℚ) (rot : ℚ → Pt → Pt) (b : BasePort) (tr post : TransArg) :
    BasePort :=
  BasePort.transformed dbu rot b tr post

/-! ## `ProtoPort.__eq__` (port.py lines 274–278) -/

/-- A port value as seen through one of the two unit views: `isPort = true`
for the dbu view `Port`, `false` for the micrometer view `DPort`.  Both views
wrap the same `BasePort` state. -/
structure PortView where
  isPort : Bool
  base : BasePort

/-- The method `ProtoPort.__eq__`: compares the underlying `BasePort`s, but only when the
right-hand operand is an instance of `Port`; any other operand (including a
`DPort`) yields `False`. -/
def ProtoPort.eq (self other : PortView) : Bool :=
  if other.isPort then self.base == other.base else false

/-! ## `port_check` and the netlist bucket of `ProtoTKCell.circuit`
(`port.py` lines 75–90, `kcell.py` lines 1664–1684) -/

/-- The assertion failures of `port_check` and of the instance bucket of
`ProtoTKCell.circuit`, in the order the source raises them. -/
inductive CircErr where
  | tooMany (n : ℕ)
  | transMismatch
  | widthMismatch
  | layerMismatch
  | typeMismatch
deriving DecidableEq

/-- The function `port_check(p1, p2, PortCheck.all_opposite)` (port.py lines 75–90): assert
in order that the transforms are exactly opposite (`p1.trans == p2.trans *
R180` or `== p2.trans * M90`), then equal width, layer and port type; the
first failing assertion raises. -/
def port_check_opposite (dbu : ℚ) (p1 p2 : BasePort) : Except CircErr Unit :=
  if ¬(trans_get dbu p1 = trans_get dbu p2 * Trans.R180 ∨
       trans_get dbu p1 = trans_get dbu p2 * Trans.M90) then .error .transMismatch
  else if p1.width ≠ p2.width then .error .widthMismatch
  else if p1.layer ≠ p2.layer then .error .layerMismatch
  else if p1.port_type ≠ p2.port_type then .error .typeMismatch
  else .ok ()

/-- The pairwise compatibility `port_check` enforces for two directly
connected instance ports. -/
def compatibleOpposite (dbu : ℚ) (p1 p2 : BasePort) : Prop :=
  (trans_get dbu p1 = trans_get dbu p2 * Trans.R180 ∨
   trans_get dbu p1 = trans_get dbu p2 * Trans.M90) ∧
  p1.width = p2.width ∧ p1.layer = p2.layer ∧ p1.port_type = p2.port_type

instance (dbu : ℚ) (p1 p2 : BasePort) : Decidable (compatibleOpposite dbu p1 p2) := by
  unfold compatibleOpposite; infer_instance

/-- One instance port as bucketed by `ProtoTKCell.circuit`: the owning
instance, the port index within it (its pin), and the port state. -/
structure IPort where
  instId : ℕ
  portId : ℕ
  port : BasePort
deriving DecidableEq

/-- The netlist bucket step of `ProtoTKCell.circuit` for a (position, layer)
bucket of instance ports with no matching cell boundary bucket (kcell.py
lines 1664–1684): a net is created; more than two ports fail the
`len(ports) <= 2` assertion; exactly two ports are `port_check`ed for
pairwise opposite compatibility and both pins are connected to the net; a
single port leaves the net without connected pins (a dangling pin, no
error).  The result is the list of pins connected to the created net. -/
def circuitInstBucket (dbu : ℚ) (ports : List IPort) :
    Except CircErr (List (ℕ × ℕ)) :=
  if 2 < ports.length then .error (.tooMany ports.length)
  else
    match ports with
    | [p1, p2] =>
      match port_check_opposite dbu p1.port p2.port with
      | .error e => .error e
      | .ok _ => .ok [(p1.instId, p1.portId), (p2.instId, p2.portId)]
    | _ => .ok []

/-! ## Bucket classification of `ProtoTKCell.connectivity_check`
(`kcell.py` lines 1842–2038) -/

/-- The diagnostics emitted for one (layer, position) bucket of instance
ports, carrying the identifiers of the ports the source lists in the report
item. -/
inductive Diag where
  | widthMismatch (a b : ℕ)
  | angleMismatch (a b : ℕ)
  | typeMismatch (a b : ℕ)
  | orphanPort (a : ℕ)
  | portOverlap (ids : List ℕ)
  | invalidBucket
deriving DecidableEq

/-- An instance port as bucketed by `connectivity_check`, identified by a
numeric id. -/
structure CPort where
  portId : ℕ
  port : BasePort
deriving DecidableEq

/-- Modelled from the spec: `check_cell_ports` (kcell.py imports it from a
module that is not under `src/`) compares a cell boundary port with the one
matching instance port and returns bit flags — 1 width mismatch, 2 angle
mismatch, 4 port-type mismatch. -/
def check_cell_ports (dbu : ℚ) (p1 p2 : BasePort) : ℕ :=
  (if p1.width ≠ p2.width then 1 else 0) +
  (if (trans_get dbu p1).angle ≠ (trans_get dbu p2).angle then 2 else 0) +
  (if p1.port_type ≠ p2.port_type then 4 else 0)

/-- Modelled from the spec: `check_inst_ports` (kcell.py imports it from a
module that is not under `src/`) compares two colliding instance ports and
returns bit flags — 1 width mismatch, 2 angle mismatch (orientations not
exactly opposite), 4 port-type mismatch. -/
def check_inst_ports (dbu : ℚ) (p1 p2 : BasePort) : ℕ :=
  (if p1.width ≠ p2.width then 1 else 0) +
  (if (trans_get dbu p1).angle ≠ (trans_get dbu p2).angle + 2 then 2 else 0) +
  (if p1.port_type ≠ p2.port_type then 4 else 0)

/-- Turn the bit flags of a pairwise port check into the corresponding
mismatch diagnostics (kcell.py lines 1851–1893 / 1920–1962). -/
def mismatchDiags (bits : ℕ) (a b : ℕ) : List Diag :=
  (if bits &&& 1 ≠ 0 then [Diag.widthMismatch a b] else []) ++
  (if bits &&& 2 ≠ 0 then [Diag.angleMismatch a b] else []) ++
  (if bits &&& 4 ≠ 0 then [Diag.typeMismatch a b] else [])

/-- The classification `connectivity_check` performs for one (layer, position)
bucket of instance ports (kcell.py lines 1842–2038), given the first cell
boundary port at the same position and layer, if any: a single port is either
pairwise-checked against the boundary port or, with no boundary port there,
reported as an `OrphanPort`; two ports are pairwise-checked against each
other, plus a port-overlap report when a boundary port also occupies the
point; more than two ports are always reported as one port-overlap listing
every port of the bucket; an empty bucket is the `ValueError` arm of the
source's `match`. -/
def classifyBucket (dbu : ℚ) (cellPort : Option CPort) (ports : List CPort) :
    List Diag :=
  match ports with
  | [] => [Diag.invalidBucket]
  | [p] =>
    match cellPort with
    | some cp => mismatchDiags (check_cell_ports dbu cp.port p.port) p.portId cp.portId
    | none => [Diag.orphanPort p.portId]
  | [p, q] =>
    mismatchDiags (check_inst_ports dbu p.port q.port) p.portId q.portId ++
    (match cellPort with
     | some cp => [Diag.portOverlap [cp.portId, p.portId, q.portId]]
     | none => [])
  | ps => [Diag.portOverlap (ps.map CPort.portId)]

/-! ## The all-angle route synthesizer (`routing/aa/optical.py`) -/

/-- A placed element of a route: a straight produced by the straight factory
with its length argument, or a bend fetched for the signed turn angle `a`.
`negTurn` records the entry-port choice of optical.py lines 129–134: for a
negative turn the instance is connected at `bend_ports[1]` and exited at
`bend_ports[0]`, for a positive turn the mirrored choice is used. -/
inductive Inst (C : Type) where
  | straight (cell : C) (length : ℚ)
  | bend (a : ℚ) (cell : C) (negTurn : Bool)
deriving DecidableEq

/-- The `ValueError`s `route` raises, with the data interpolated into the
messages: fewer than three backbone points, or not enough space between two
waypoints (`needed` = running start offset + effective radius, `available` =
distance between the waypoints). -/
inductive RouteErr where
  | unsupportedBackbone
  | insufficientSpace (p1 p2 : Pt) (needed available : ℚ)
deriving DecidableEq

/-- The loop state of `route`: the two waypoints delimiting the current
segment, the running start offset, the bend cache keyed by the signed turn
angle, and the placed instances. -/
structure RouteState (C : Type) where
  old_pt : Pt
  pt : Pt
  start_offset : ℚ
  bends : List (ℚ × C)
  insts : List (Inst C)
deriving DecidableEq

/-- The inputs of `route` together with the external geometric primitives the
source delegates to libraries: `len` models `kdb.DVector.length`, `angle`
models `_angle` (degrees of `np.arctan2`), and `effRad` models optical.py
lines 88–106 — the distance from the bend cell's first port to the cut point
of the tangent rays of its two ports, computed by `kdb.DEdge.cut_point`. -/
structure RouteArgs (C : Type) where
  len : Pt → ℚ
  angle : Pt → ℚ
  effRad : C → ℚ
  straight_factory : ℚ → ℚ → C
  bend_factory : ℚ → ℚ → C
  width : ℚ

/-- The signed turn angle at the interior waypoint `st.pt` flanked by
`st.old_pt` and `new_pt` (optical.py lines 76–80):
`(e_a - s_a + 180) % 360 - 180`, normalised into `[-180, 180)`. -/
def turnAngle {C : Type} (A : RouteArgs C) (st : RouteState C) (new_pt : Pt) : ℚ :=
  pymod (A.angle (new_pt - st.pt) - A.angle (st.pt - st.old_pt) + 180) 360 - 180

/-- Lookup in the bend cache (the Python `dict` keyed by the signed turn
angle: `_a in bends` / `bends[_a]`). -/
def bendsFind {C : Type} (a : ℚ) : List (ℚ × C) → Option C
  | [] => none
  | (k, c) :: r => if k = a then some c else bendsFind a r

/-- The bend cell used at this waypoint: the cached cell for the signed turn
angle, or a fresh `bend_factory(width, abs(a))` on a cache miss (optical.py
lines 84–86). -/
def stepBend {C : Type} (A : RouteArgs C) (st : RouteState C) (new_pt : Pt) : C :=
  match bendsFind (turnAngle A st new_pt) st.bends with
  | some c => c
  | none => A.bend_factory A.width |turnAngle A st new_pt|

/-- The bend cache after this waypoint: extended by the freshly created cell
exactly on a cache miss. -/
def stepBends {C : Type} (A : RouteArgs C) (st : RouteState C) (new_pt : Pt) :
    List (ℚ × C) :=
  match bendsFind (turnAngle A st new_pt) st.bends with
  | some _ => st.bends
  | none => st.bends ++ [(turnAngle A st new_pt, A.bend_factory A.width |turnAngle A st new_pt|)]

/-- One iteration of the `route` loop (optical.py lines 74–138) for the next
waypoint `new_pt`: compute the signed turn angle; for a non-zero turn fetch
or create the bend, derive its effective radius, and fail when the straight
between `old_pt` and `pt` would have negative length; place the straight when
its length is positive, then the bend (entry port chosen by turn sign);
advance the state. -/
def routeStep {C : Type} (A : RouteArgs C) (st : RouteState C) (new_pt : Pt) :
    Except RouteErr (RouteState C) :=
  let a := turnAngle A st new_pt
  if a ≠ 0 then
    let bend := stepBend A st new_pt
    let er := A.effRad bend
    if A.len (st.pt - st.old_pt) - er - st.start_offset < 0 then
      .error (.insufficientSpace st.old_pt st.pt (st.start_offset + er)
        (A.len (st.pt - st.old_pt)))
    else
      let l := A.len (st.pt - st.old_pt) - er - st.start_offset
      let insts₁ :=
        if 0 < l then st.insts ++ [Inst.straight (A.straight_factory A.width l) l]
        else st.insts
      .ok ⟨st.pt, new_pt, er, stepBends A st new_pt,
        insts₁ ++ [Inst.bend a bend (decide (a < 0))]⟩
  else
    let l := A.len (st.pt - st.old_pt) - 0 - st.start_offset
    let insts₁ :=
      if 0 < l then st.insts ++ [Inst.straight (A.straight_factory A.width l) l]
      else st.insts
    .ok ⟨st.pt, new_pt, 0, st.bends, insts₁⟩

/-- The `for new_pt in backbone[2:]` loop of `route`. -/
def routeLoop {C : Type} (A : RouteArgs C) :
    RouteState C → List Pt → Except RouteErr (RouteState C)
  | st, [] => .ok st
  | st, p :: ps =>
    match routeStep A st p with
    | .error e => .error e
    | .ok st' => routeLoop A st' ps

/-- The closing straight of `route` (optical.py lines 139–153): its length is
the final segment minus the last effective radius; a negative length is a
hard error naming the two final waypoints, a positive one places one more
straight. -/
def routeFinish {C : Type} (A : RouteArgs C) (st : RouteState C) :
    Except RouteErr (RouteState C) :=
  let l := A.len (st.pt - st.old_pt) - st.start_offset
  if l < 0 then
    .error (.insufficientSpace st.old_pt st.pt st.start_offset
      (A.len (st.pt - st.old_pt)))
  else if 0 < l then
    .ok { st with insts := st.insts ++ [Inst.straight (A.straight_factory A.width l) l] }
  else .ok st

/-- The function `route` (optical.py lines 31–158): reject a backbone of fewer than three
waypoints before anything is placed, then run the waypoint loop starting from
the first segment and emit the closing straight.  The result is the list of
placed instances (the `insts` field of the returned route object; the start
and end `Port` objects of the source, which no claim concerns, are omitted). -/
def route {C : Type} (A : RouteArgs C) (backbone : List Pt) :
    Except RouteErr (List (Inst C)) :=
  match backbone with
  | p0 :: p1 :: p2 :: rest =>
    match routeLoop A ⟨p0, p1, 0, [], []⟩ (p2 :: rest) with
    | .error e => .error e
    | .ok st =>
      match routeFinish A st with
      | .error e => .error e
      | .ok st' => .ok st'.insts
  | _ => .error .unsupportedBackbone

/-! ## Concrete scenario geometry

The route scenarios of the spec use axis-aligned backbones and a 90° bend of
effective radius 5.  On axis-aligned data the external float primitives are
exact, and the following rational instantiations reproduce their values. -/

/-- The exact value of `kdb.DVector.length` on axis-aligned vectors, where the
float square root is exact (the scenario backbones only produce such
vectors). -/
def axisLen (v : Pt) : ℚ :=
  if v.1 = 0 then |v.2| else if v.2 = 0 then |v.1| else 0

/-- The exact value of `_angle` (degrees of `atan2`) on axis-aligned vectors,
where the float computation yields the exact multiples of 90. -/
def axisAngleDeg (v : Pt) : ℚ :=
  if v.2 = 0 ∧ 0 < v.1 then 0
  else if v.1 = 0 ∧ 0 < v.2 then 90
  else if v.2 = 0 ∧ v.1 < 0 then 180
  else if v.1 = 0 ∧ v.2 < 0 then -90
  else 0

/-- Cut point of the line through `p` with direction `d` and the line through
`q` with direction `e` (exact rational model of `kdb.DEdge.cut_point` for
non-parallel lines). -/
def cutPt (p d q e : Pt) : Pt :=
  let det := d.1 * e.2 - d.2 * e.1
  if det = 0 then (0, 0)
  else
    let t := ((q.1 - p.1) * e.2 - (q.2 - p.2) * e.1) / det
    (p.1 + t * d.1, p.2 + t * d.2)

/-- The virtual cells of the scenario factories: exact-length straights, and
bend cells carrying the positions and outward tangent directions of their two
ports. -/
inductive SCell where
  | straightCell (width length : ℚ)
  | bendCell (width : ℚ) (p1pos p1dir p2pos p2dir : Pt)
deriving DecidableEq

/-- The scenario bend factory: a 90° bend whose port 1 sits at the origin
facing 180° and whose port 2 sits at `(5, 5)` facing 90°, so the tangent rays
cut at `(5, 0)` and the effective radius is 5, as the spec's scenarios
stipulate. -/
def scBendFactory (w _a : ℚ) : SCell :=
  SCell.bendCell w (0, 0) (-1, 0) (5, 5) (0, 1)

/-- The effective radius of a scenario cell, following optical.py lines
88–106: the distance from port 1 to the cut point of the two ports' tangent
rays (axis-aligned for the scenario bend, hence exact). -/
def scEffRad : SCell → ℚ
  | .straightCell _ _ => 0
  | .bendCell _ p1pos p1dir p2pos p2dir =>
    axisLen (cutPt p1pos p1dir p2pos p2dir - p1pos)

/-- The scenario instantiation of `route`'s inputs: width-1 route, exact
axis-aligned geometry, exact-length straight factory and the radius-5 90°
bend factory. -/
def scArgs : RouteArgs SCell :=
  ⟨axisLen, axisAngleDeg, scEffRad, SCell.straightCell, scBendFactory, 1⟩

/-- The scenario's bend cell, as produced by the factory. -/
def scBend : SCell := scBendFactory 1 90

/-- The loop state of `route` after initialisation for a backbone starting
`(0,0), (3,0), …` — used to exhibit the insufficient-space error. -/
def scShortState : RouteState SCell := ⟨(0, 0), (3, 0), 0, [], []⟩

/-- The loop state of `route` after initialisation for a backbone starting
`(0,0), (10,0), …` — used to exhibit the bend cache contents. -/
def scWideState : RouteState SCell := ⟨(0, 0), (10, 0), 0, [], []⟩

/-- A loop state sitting on the collinear segment `(0,0) – (5,0)` with the
next waypoint continuing straight — used for the zero-turn step. -/
def scLineState : RouteState SCell := ⟨(0, 0), (5, 0), 0, [], []⟩

/-- A port state with a stored complex transform (30° rotation, off-grid
displacement) and no stored simple transform, as the `Port` constructor
creates it from a complex `dcplx_trans` argument. -/
def stalePort : BasePort :=
  ⟨some 1, 2, 1, none, some ⟨1, 30, false, (1/2, 0)⟩, 0⟩

/-! ## Helper lemmas -/

/-- The check `port_check(…, PortCheck.all_opposite)` passes exactly on compatible
ports, and any failure is one of the four mismatch assertions, never the
too-many-ports error. -/
lemma port_check_opposite_cases (dbu : ℚ) (p1 p2 : BasePort) :
    (compatibleOpposite dbu p1 p2 ∧ port_check_opposite dbu p1 p2 = .ok ()) ∨
    (¬compatibleOpposite dbu p1 p2 ∧
      ∃ e, port_check_opposite dbu p1 p2 = .error e ∧ ∀ n, e ≠ .tooMany n) := by
  unfold compatibleOpposite
  by_cases hA : trans_get dbu p1 = trans_get dbu p2 * Trans.R180 ∨
      trans_get dbu p1 = trans_get dbu p2 * Trans.M90
  · by_cases hW : p1.width = p2.width
    · by_cases hL : p1.layer = p2.layer
      · by_cases hT : p1.port_type = p2.port_type
        · refine Or.inl ⟨⟨hA, hW, hL, hT⟩, ?_⟩
          unfold port_check_opposite
          rw [if_neg (not_not_intro hA), if_neg (not_not_intro hW),
            if_neg (not_not_intro hL), if_neg (not_not_intro hT)]
        · refine Or.inr ⟨fun h => hT h.2.2.2, .typeMismatch, ?_, fun n h => nomatch h⟩
          unfold port_check_opposite
          rw [if_neg (not_not_intro hA), if_neg (not_not_intro hW),
            if_neg (not_not_intro hL), if_pos hT]
      · refine Or.inr ⟨fun h => hL h.2.2.1, .layerMismatch, ?_, fun n h => nomatch h⟩
        unfold port_check_opposite
        rw [if_neg (not_not_intro hA), if_neg (not_not_intro hW), if_pos hL]
    · refine Or.inr ⟨fun h => hW h.2.1, .widthMismatch, ?_, fun n h => nomatch h⟩
      unfold port_check_opposite
      rw [if_neg (not_not_intro hA), if_pos hW]
  · refine Or.inr ⟨fun h => hA h.1, .transMismatch, ?_, fun n h => nomatch h⟩
    unfold port_check_opposite
    rw [if_pos hA]

/-- A waypoint step with a non-zero turn angle whose straight would come out
negative fails with the insufficient-space error naming the two waypoints,
the needed space and the available space. -/
lemma routeStep_insufficient {C : Type} (A : RouteArgs C) (st : RouteState C)
    (p : Pt) (ha : turnAngle A st p ≠ 0)
    (h : A.len (st.pt - st.old_pt) - A.effRad (stepBend A st p) - st.start_offset < 0) :
    routeStep A st p = .error (.insufficientSpace st.old_pt st.pt
      (st.start_offset + A.effRad (stepBend A st p)) (A.len (st.pt - st.old_pt))) := by
  simp only [routeStep, if_pos ha, if_pos h]

/-! ## Claim theorems -/

/-- C1: the claim that assigning `trans` or `dcplx_trans` clears the stored
other representation is right about the intent (the getters' and setters' own
docstrings promise it), but the code does neither: after assigning `trans` to
a port holding a complex transform, the stale complex transform is still
stored and is what the `dcplx_trans` getter returns, and the narrowing branch
of the `dcplx_trans` setter likewise leaves the old complex transform behind
next to the freshly narrowed simple one. -/
theorem c1_setter_keeps_stale_repr :
    (trans_set stalePort ⟨0, false, (0, 0)⟩).trans = some ⟨0, false, (0, 0)⟩ ∧
    (trans_set stalePort ⟨0, false, (0, 0)⟩).dcplx_trans = some ⟨1, 30, false, (1/2, 0)⟩ ∧
    dcplx_trans_get (1/1000) (trans_set stalePort ⟨0, false, (0, 0)⟩) =
      ⟨1, 30, false, (1/2, 0)⟩ ∧
    (dcplx_trans_set (1/1000) stalePort ⟨1, 90, false, (1, 0)⟩).trans =
      some ⟨1, false, (1000, 0)⟩ ∧
    (dcplx_trans_set (1/1000) stalePort ⟨1, 90, false, (1, 0)⟩).dcplx_trans =
      some ⟨1, 30, false, (1/2, 0)⟩ := by
  have hcond : ¬((⟨1, 90, false, (1, 0)⟩ : DCplx).is_complex ∨
      (⟨1, 90, false, (1, 0)⟩ : DCplx).disp ≠
        to_um (1/1000) (to_dbu (1/1000) (⟨1, 90, false, (1, 0)⟩ : DCplx).disp)) := by
    norm_num [DCplx.is_complex, to_um, to_dbu, Prod.ext_iff]
  refine ⟨rfl, rfl, rfl, ?_, ?_⟩
  · unfold dcplx_trans_set
    rw [if_neg hcond]
    norm_num [sTrans, to_dbu]
  · unfold dcplx_trans_set
    rw [if_neg hcond]
    rfl

/-- C2: on the backbone `[(0,0),(10,0),(10,10)]` with the radius-5 90° bend
and exact-length straights, `route` succeeds and places exactly three
instances, in order: a straight of length 5, the 90° bend, a straight of
length 5. -/
theorem c2_route_scenario :
    route scArgs [((0 : ℚ), (0 : ℚ)), (10, 0), (10, 10)] =
      .ok [Inst.straight (SCell.straightCell 1 5) 5, Inst.bend 90 scBend false,
           Inst.straight (SCell.straightCell 1 5) 5] ∧
    [Inst.straight (SCell.straightCell 1 5) 5, Inst.bend 90 scBend false,
     Inst.straight (SCell.straightCell 1 5) 5].length = 3 := by
  refine ⟨?_, rfl⟩
  norm_num [route, routeLoop, routeFinish, routeStep, turnAngle, stepBend, stepBends,
    bendsFind, axisAngleDeg, axisLen, pymod, Prod.sub_def, scArgs, scEffRad,
    scBendFactory, scBend, cutPt]

/-- C3: whenever the straight computed at an interior waypoint
(`distance − effective radius − running offset`) or the closing straight
(`distance − last effective radius`) is negative, `route` fails with the
insufficient-space error naming the two offending waypoints (with the needed
and available space), never clamping; in particular the backbone
`[(0,0),(3,0),(3,10)]` with the radius-5 bend fails naming `(0,0)` and
`(3,0)`. -/
theorem c3_insufficient_space :
    (∀ {C : Type} (A : RouteArgs C) (st : RouteState C) (p : Pt) (ps : List Pt),
      turnAngle A st p ≠ 0 →
      A.len (st.pt - st.old_pt) - A.effRad (stepBend A st p) - st.start_offset < 0 →
      routeLoop A st (p :: ps) = .error (.insufficientSpace st.old_pt st.pt
        (st.start_offset + A.effRad (stepBend A st p)) (A.len (st.pt - st.old_pt)))) ∧
    (∀ {C : Type} (A : RouteArgs C) (st : RouteState C),
      A.len (st.pt - st.old_pt) - st.start_offset < 0 →
      routeFinish A st = .error (.insufficientSpace st.old_pt st.pt st.start_offset
        (A.len (st.pt - st.old_pt)))) ∧
    route scArgs [((0 : ℚ), (0 : ℚ)), (3, 0), (3, 10)] =
      .error (.insufficientSpace (0, 0) (3, 0) 5 3) := by
  refine ⟨?_, ?_, ?_⟩
  · intro C A st p ps ha h
    simp only [routeLoop, routeStep_insufficient A st p ha h]
  · intro C A st h
    simp only [routeFinish, if_pos h]
  · norm_num [route, routeLoop, routeFinish, routeStep, turnAngle, stepBend, stepBends,
      bendsFind, axisAngleDeg, axisLen, pymod, Prod.sub_def, scArgs, scEffRad,
      scBendFactory, scBend, cutPt]

/-- Witness for C3 at the concrete insufficient backbone. -/
theorem c3_insufficient_space_witness :
    turnAngle scArgs scShortState (3, 10) ≠ 0 ∧
    scArgs.len (scShortState.pt - scShortState.old_pt) -
      scArgs.effRad (stepBend scArgs scShortState (3, 10)) -
      scShortState.start_offset < 0 ∧
    routeLoop scArgs scShortState [((3 : ℚ), 10)] =
      .error (.insufficientSpace (0, 0) (3, 0) 5 3) := by
  have ha : turnAngle scArgs scShortState (3, 10) ≠ 0 := by
    norm_num [turnAngle, axisAngleDeg, pymod, Prod.sub_def, scArgs, scShortState]
  have hneg : scArgs.len (scShortState.pt - scShortState.old_pt) -
      scArgs.effRad (stepBend scArgs scShortState (3, 10)) -
      scShortState.start_offset < 0 := by
    norm_num [turnAngle, stepBend, bendsFind, axisAngleDeg, axisLen, pymod, Prod.sub_def,
      scArgs, scEffRad, scBendFactory, cutPt, scShortState]
  refine ⟨ha, hneg, ?_⟩
  rw [c3_insufficient_space.1 scArgs scShortState (3, 10) [] ha hneg]
  norm_num [turnAngle, stepBend, bendsFind, axisAngleDeg, axisLen, pymod, Prod.sub_def,
    scArgs, scEffRad, scBendFactory, cutPt, scShortState]

/-- C4 (counterexample): the bend cache is keyed by the *signed* turn angle,
not its absolute value — a route whose interior waypoints turn by +90° and
−90° ends with two cache entries, so the bend factory is invoked twice (one
invocation per cache entry, by construction of the cache), refuting "the bend
factory invoked only once for that angle". -/
theorem c4_cache_counterexample :
    routeLoop scArgs scWideState [((10 : ℚ), 10), (20, 10)] =
      .ok ⟨(10, 10), (20, 10), 5, [(90, scBend), (-90, scBend)],
           [Inst.straight (SCell.straightCell 1 5) 5, Inst.bend 90 scBend false,
            Inst.bend (-90) scBend true]⟩ ∧
    [((90 : ℚ), scBend), (-90, scBend)].length ≠ 1 := by
  refine ⟨?_, by simp⟩
  norm_num [routeLoop, routeStep, turnAngle, stepBend, stepBends, bendsFind,
    axisAngleDeg, axisLen, pymod, Prod.sub_def, scArgs, scEffRad, scBendFactory,
    scBend, cutPt, scWideState]

/-- C4 (amended): the cache is keyed by the signed turn angle — a step reuses
the cached cell exactly when the signed angle is already a key, and a miss
appends one entry whose cell is `bend_factory(width, abs(a))`, so the entries
created for a turn and its negative hold equal cells while the factory runs
once per signed key; the entry/exit port choice is mirrored between the
positive and the negative turn (`negTurn` flag of the placed bends). -/
theorem c4_cache_signed_key :
    (∀ {C : Type} (A : RouteArgs C) (st : RouteState C) (p : Pt),
      bendsFind (turnAngle A st p) st.bends = none →
      stepBends A st p =
        st.bends ++ [(turnAngle A st p, A.bend_factory A.width |turnAngle A st p|)]) ∧
    (∀ {C : Type} (A : RouteArgs C) (st : RouteState C) (p : Pt) (c : C),
      bendsFind (turnAngle A st p) st.bends = some c →
      stepBends A st p = st.bends ∧ stepBend A st p = c) ∧
    (∃ st : RouteState SCell,
      routeLoop scArgs scWideState [((10 : ℚ), 10), (20, 10)] = .ok st ∧
      st.bends = [(90, scBend), (-90, scBend)] ∧
      st.insts = [Inst.straight (SCell.straightCell 1 5) 5, Inst.bend 90 scBend false,
                  Inst.bend (-90) scBend true]) := by
  refine ⟨?_, ?_, ?_⟩
  · intro C A st p h
    simp only [stepBends, h]
  · intro C A st p c h
    exact ⟨by simp only [stepBends, h], by simp only [stepBend, h]⟩
  · refine ⟨⟨(10, 10), (20, 10), 5, [(90, scBend), (-90, scBend)],
      [Inst.straight (SCell.straightCell 1 5) 5, Inst.bend 90 scBend false,
       Inst.bend (-90) scBend true]⟩, ?_, rfl, rfl⟩
    norm_num [routeLoop, routeStep, turnAngle, stepBend, stepBends, bendsFind,
      axisAngleDeg, axisLen, pymod, Prod.sub_def, scArgs, scEffRad, scBendFactory,
      scBend, cutPt, scWideState]

/-- Witness for C4 at a concrete cache miss. -/
theorem c4_cache_signed_key_witness :
    bendsFind (turnAngle scArgs scWideState (10, 10)) scWideState.bends = none ∧
    stepBends scArgs scWideState (10, 10) =
      scWideState.bends ++ [(turnAngle scArgs scWideState (10, 10),
        scArgs.bend_factory scArgs.width |turnAngle scArgs scWideState (10, 10)|)] :=
  ⟨rfl, c4_cache_signed_key.1 scArgs scWideState (10, 10) rfl⟩

/-- C5: for a (position, layer) bucket of instance ports with no matching
boundary bucket, more than two ports is an error; exactly two ports are
checked for pairwise opposite-orientation/width/layer/type compatibility and,
when compatible, both pins are connected to the created net (an incompatible
pair raises a mismatch assertion, not the too-many error); a single port
raises no error and connects nothing — a dangling pin. -/
theorem c5_circuit_bucket :
    (∀ (dbu : ℚ) (ports : List IPort), 2 < ports.length →
      circuitInstBucket dbu ports = .error (.tooMany ports.length)) ∧
    (∀ (dbu : ℚ) (p : IPort), circuitInstBucket dbu [p] = .ok []) ∧
    (∀ (dbu : ℚ) (p q : IPort),
      (compatibleOpposite dbu p.port q.port →
        circuitInstBucket dbu [p, q] = .ok [(p.instId, p.portId), (q.instId, q.portId)]) ∧
      (¬compatibleOpposite dbu p.port q.port →
        ∃ e, circuitInstBucket dbu [p, q] = .error e ∧ ∀ n, e ≠ .tooMany n)) := by
  refine ⟨?_, ?_, ?_⟩
  · intro dbu ports h
    unfold circuitInstBucket
    rw [if_pos h]
  · intro dbu p
    rfl
  · intro dbu p q
    rcases port_check_opposite_cases dbu p.port q.port with ⟨hc, hok⟩ | ⟨hc, e, he, hne⟩
    · refine ⟨fun _ => ?_, fun h => absurd hc h⟩
      simp [circuitInstBucket, hok]
    · refine ⟨fun h => absurd h hc, fun _ => ⟨e, ?_, hne⟩⟩
      simp [circuitInstBucket, he]

/-- Witness for C5: a three-port bucket errors, a singleton dangles, and a
compatible pair connects both pins. -/
theorem c5_circuit_bucket_witness :
    circuitInstBucket 1 [⟨0, 0, ⟨some 0, 2, 1, some ⟨0, false, (0, 0)⟩, none, 0⟩⟩,
                         ⟨0, 0, ⟨some 0, 2, 1, some ⟨0, false, (0, 0)⟩, none, 0⟩⟩,
                         ⟨0, 0, ⟨some 0, 2, 1, some ⟨0, false, (0, 0)⟩, none, 0⟩⟩] =
      .error (.tooMany 3) ∧
    circuitInstBucket 1 [⟨0, 0, ⟨some 0, 2, 1, some ⟨0, false, (0, 0)⟩, none, 0⟩⟩] = .ok [] ∧
    compatibleOpposite 1 ⟨some 0, 2, 1, some ⟨0, false, (0, 0)⟩, none, 0⟩
      ⟨some 1, 2, 1, some ⟨2, false, (0, 0)⟩, none, 0⟩ ∧
    circuitInstBucket 1 [⟨0, 0, ⟨some 0, 2, 1, some ⟨0, false, (0, 0)⟩, none, 0⟩⟩,
                         ⟨1, 0, ⟨some 1, 2, 1, some ⟨2, false, (0, 0)⟩, none, 0⟩⟩] =
      .ok [(0, 0), (1, 0)] := by
  refine ⟨c5_circuit_bucket.1 1 _ (by decide), c5_circuit_bucket.2.1 1 _, by decide, ?_⟩
  exact (c5_circuit_bucket.2.2 1 _ _).1 (by decide)

/-- C6: in `connectivity_check`, a bucket holding exactly one instance port at
a (layer, position) with no cell boundary port there yields the orphan-port
diagnostic, and a bucket of three or more colliding instance ports yields one
port-overlap diagnostic listing every port of the bucket. -/
theorem c6_connectivity_classify :
    (∀ (dbu : ℚ) (p : CPort),
      classifyBucket dbu none [p] = [Diag.orphanPort p.portId]) ∧
    (∀ (dbu : ℚ) (cp : Option CPort) (ports : List CPort), 2 < ports.length →
      classifyBucket dbu cp ports = [Diag.portOverlap (ports.map CPort.portId)]) := by
  refine ⟨fun dbu p => rfl, ?_⟩
  intro dbu cp ports h
  rcases ports with _ | ⟨a, _ | ⟨b, _ | ⟨c, r⟩⟩⟩ <;> simp_all [classifyBucket]

/-- Witness for C6: a concrete singleton orphan and a concrete three-port
overlap listing all three ports. -/
theorem c6_connectivity_classify_witness :
    classifyBucket 1 none [⟨7, ⟨some 7, 2, 1, some ⟨0, false, (0, 0)⟩, none, 0⟩⟩] =
      [Diag.orphanPort 7] ∧
    classifyBucket 1 (some ⟨9, ⟨some 9, 2, 1, some ⟨0, false, (0, 0)⟩, none, 0⟩⟩)
      [⟨1, ⟨some 1, 2, 1, some ⟨0, false, (0, 0)⟩, none, 0⟩⟩,
       ⟨2, ⟨some 2, 2, 1, some ⟨0, false, (0, 0)⟩, none, 0⟩⟩,
       ⟨3, ⟨some 3, 2, 1, some ⟨0, false, (0, 0)⟩, none, 0⟩⟩] =
      [Diag.portOverlap [1, 2, 3]] :=
  ⟨c6_connectivity_classify.1 1 _, c6_connectivity_classify.2 1 _ _ (by decide)⟩

/-- C7: for a port whose stored transform is simple and simple arguments
`T1`, `T2`, the copy's simple transform is `T1 * port.trans * T2`, with the
complex slot and the identity fields taken over unchanged from the source
(the source operates on a `__copy__` that duplicates the transforms, so the
original port is never mutated). -/
theorem c7_copy_simple_law :
    ∀ (dbu : ℚ) (rot : ℚ → Pt → Pt) (b : BasePort) (t t1 t2 : Trans),
      b.trans = some t →
      (Port.copy dbu rot b (.simple t1) (.simple t2)).trans = some (t1 * t * t2) ∧
      (Port.copy dbu rot b (.simple t1) (.simple t2)).dcplx_trans = b.dcplx_trans ∧
      (Port.copy dbu rot b (.simple t1) (.simple t2)).name = b.name ∧
      (Port.copy dbu rot b (.simple t1) (.simple t2)).width = b.width := by
  intro dbu rot b t t1 t2 h
  obtain ⟨name, w, l, tr, dc, pt⟩ := b
  cases h
  exact ⟨rfl, rfl, rfl, rfl⟩

/-- Witness for C7 at a concrete simple-stored port. -/
theorem c7_copy_simple_law_witness :
    (Port.copy (1/1000) (fun _ v => v)
        ⟨some 3, 2, 1, some ⟨1, false, (3, 4)⟩, none, 0⟩
        (.simple ⟨1, false, (10, 0)⟩) (.simple ⟨0, true, (2, 0)⟩)).trans =
      some (Trans.mul (Trans.mul ⟨1, false, (10, 0)⟩ ⟨1, false, (3, 4)⟩) ⟨0, true, (2, 0)⟩) :=
  (c7_copy_simple_law (1/1000) (fun _ v => v) _ ⟨1, false, (3, 4)⟩ _ _ rfl).1

/-- C8: a backbone of fewer than three waypoints is rejected up front with
the unsupported-backbone error; the error return carries no placed
instances. -/
theorem c8_short_backbone :
    ∀ {C : Type} (A : RouteArgs C) (backbone : List Pt), backbone.length < 3 →
      route A backbone = .error .unsupportedBackbone := by
  intro C A backbone h
  rcases backbone with _ | ⟨a, _ | ⟨b, _ | ⟨c, r⟩⟩⟩
  · rfl
  · rfl
  · rfl
  · simp only [List.length_cons] at h; omega

/-- Witness for C8 at a two-point backbone. -/
theorem c8_short_backbone_witness :
    route scArgs [((0 : ℚ), (0 : ℚ)), (1, 0)] = .error .unsupportedBackbone :=
  c8_short_backbone scArgs _ (by decide)

/-- C9 (counterexample): on the collinear backbone `[(0,0),(5,0),(10,0)]` the
zero-turn waypoint places no bend, but the two flanking straight runs are
emitted as two separate straight instances of length 5 each — not merged into
a single straight instance covering both segments. -/
theorem c9_no_merge_counterexample :
    route scArgs [((0 : ℚ), (0 : ℚ)), (5, 0), (10, 0)] =
      .ok [Inst.straight (SCell.straightCell 1 5) 5,
           Inst.straight (SCell.straightCell 1 5) 5] ∧
    [Inst.straight (SCell.straightCell 1 5) 5,
     Inst.straight (SCell.straightCell 1 5) 5].length = 2 := by
  refine ⟨?_, rfl⟩
  norm_num [route, routeLoop, routeFinish, routeStep, turnAngle, stepBend, stepBends,
    bendsFind, axisAngleDeg, axisLen, pymod, Prod.sub_def, scArgs, scEffRad,
    scBendFactory, scBend, cutPt]

/-- C9 (amended): at a waypoint whose turn angle is exactly 0 the step places
no bend, uses effective radius 0 and resets the running offset to 0, and the
only instance it may add is the straight covering the incoming segment
(length `distance − running offset`, when positive); the outgoing segment is
left to the next iteration or the closing straight. -/
theorem c9_zero_turn_step :
    ∀ {C : Type} (A : RouteArgs C) (st : RouteState C) (p : Pt),
      turnAngle A st p = 0 →
      routeStep A st p = .ok ⟨st.pt, p, 0, st.bends,
        if 0 < A.len (st.pt - st.old_pt) - 0 - st.start_offset then
          st.insts ++ [Inst.straight
            (A.straight_factory A.width (A.len (st.pt - st.old_pt) - 0 - st.start_offset))
            (A.len (st.pt - st.old_pt) - 0 - st.start_offset)]
        else st.insts⟩ := by
  intro C A st p h
  simp only [routeStep, h, ne_eq, not_true_eq_false, if_false]

/-- Witness for C9 at a concrete collinear step. -/
theorem c9_zero_turn_step_witness :
    turnAngle scArgs scLineState (10, 0) = 0 ∧
    routeStep scArgs scLineState (10, 0) =
      .ok ⟨(5, 0), (10, 0), 0, [], [Inst.straight (SCell.straightCell 1 5) 5]⟩ := by
  have h0 : turnAngle scArgs scLineState (10, 0) = 0 := by
    norm_num [turnAngle, axisAngleDeg, pymod, Prod.sub_def, scArgs, scLineState]
  refine ⟨h0, ?_⟩
  rw [c9_zero_turn_step scArgs scLineState (10, 0) h0]
  norm_num [axisLen, Prod.sub_def, scArgs, scLineState]

/-- C10: port equality across the two unit views is asymmetric — with one
shared base, a `DPort` compared to a `Port` sees a `Port` on the right and
compares the bases (true), while a `Port` compared to a `DPort` returns
false because the right-hand operand is not a `Port`. -/
theorem c10_eq_asymmetric :
    ∀ b : BasePort,
      ProtoPort.eq ⟨false, b⟩ ⟨true, b⟩ = true ∧
      ProtoPort.eq ⟨true, b⟩ ⟨false, b⟩ = false := by
  intro b
  exact ⟨by simp [ProtoPort.eq], rfl⟩

/-- Witness for C10 at a concrete base. -/
theorem c10_eq_asymmetric_witness :
    ProtoPort.eq ⟨false, ⟨some 1, 2, 1, some ⟨0, false, (0, 0)⟩, none, 0⟩⟩
        ⟨true, ⟨some 1, 2, 1, some ⟨0, false, (0, 0)⟩, none, 0⟩⟩ = true ∧
      ProtoPort.eq ⟨true, ⟨some 1, 2, 1, some ⟨0, false, (0, 0)⟩, none, 0⟩⟩
        ⟨false, ⟨some 1, 2, 1, some ⟨0, false, (0, 0)⟩, none, 0⟩⟩ = false :=
  c10_eq_asymmetric ⟨some 1, 2, 1, some ⟨0, false, (0, 0)⟩, none, 0⟩

end KF

